import Mathlib

/-!
# Verification of the counterfactual example generation and alignment engine

A shallow embedding, in Lean 4, of the core routines of the repository
(`src/data/data_utils.py` and `src/analysis_utils.py`): the prompt editors,
the tokenization/alignment layer, the sampler/aligner orchestration, and the
numeric analysis utilities.  Python strings are embedded as lists of
characters, Python string methods (`split`, `join`, `replace`, `in`, `lower`)
as executable Lean functions with Python's semantics, Python list indexing as
a checked access returning `Except` (an out-of-range access is an
`IndexError`), the `assert` statement as a checked precondition, and the
global `random` module as an explicit stream of draws threaded through the
computation.  The external boundaries (the HuggingFace tokenizer and the
torch numeric kernels) are parameters, exactly as the specification's §6
model-boundary contract prescribes.
-/

/-- A Python string, embedded as its list of characters. -/
abbrev PyStr := List Char

/-- Does `p` occur at the head of `l`?  (Helper for substring search.) -/
def isPrefixOfL : List Char → List Char → Bool
  | [], _ => true
  | _ :: _, [] => false
  | a :: as, b :: bs => a == b && isPrefixOfL as bs

/-- Python's `needle in hay` substring test on strings: `needle` occurs
contiguously somewhere in `hay`. -/
def isInfixOfL (needle : PyStr) : PyStr → Bool
  | [] => isPrefixOfL needle []
  | c :: cs => isPrefixOfL needle (c :: cs) || isInfixOfL needle cs

/-- Auxiliary scanner for `pySplit`, with fuel bounding the remaining text
length.  `acc` holds the (reversed) characters of the current piece. -/
def pySplitAux (sep : List Char) : Nat → List Char → List Char → List (List Char)
  | 0, acc, rest => [acc.reverse ++ rest]
  | _ + 1, acc, [] => [acc.reverse]
  | fuel + 1, acc, c :: cs =>
    if isPrefixOfL sep (c :: cs) then
      acc.reverse :: pySplitAux sep fuel [] ((c :: cs).drop sep.length)
    else
      pySplitAux sep fuel (c :: acc) cs

/-- Python's `s.split(sep)` for a nonempty separator: every occurrence of
`sep` splits, empty pieces are kept, and the result always has at least one
element. -/
def pySplit (sep : PyStr) (s : PyStr) : List PyStr :=
  if sep.isEmpty then [s] else pySplitAux sep s.length [] s

/-- Python's `sep.join(pieces)`. -/
def pyJoin (sep : PyStr) : List PyStr → PyStr
  | [] => []
  | [p] => p
  | p :: ps => p ++ sep ++ pyJoin sep ps

/-- Python's `s.replace(a, b)` (all occurrences), for a nonempty pattern:
split on `a` and re-join with `b`. -/
def pyReplace (a b s : PyStr) : PyStr :=
  pyJoin b (pySplit a s)

/-- Python's `s.replace(a, b, 1)`: replace only the first occurrence. -/
def pyReplaceFirst (a b s : PyStr) : PyStr :=
  if a.isEmpty then b ++ s
  else
    match pySplit a s with
    | [] => s
    | [_] => s
    | p :: ps => p ++ b ++ pyJoin a ps

/-- Python's `s.lower()`. -/
def pyLower (s : PyStr) : PyStr := s.map Char.toLower

/-- The word separator `" "`. -/
def sepSpace : PyStr := (" ").data

/-- The sentence separator `". "`. -/
def sepDot : PyStr := (". ").data

/-- The segment separator `", "`. -/
def sepComma : PyStr := (", ").data

/-- The bare period `"."`. -/
def sepPeriod : PyStr := (".").data

/-- Python `" ".join(sentence.split(" ")[:-1])`: the sentence with its final word
removed — the "base prompt" construction shared by every editor. -/
def strip_last_word (s : PyStr) : PyStr :=
  pyJoin sepSpace ((pySplit sepSpace s).dropLast)

/-- Python `sentence.split(" ")[-1][:-1]`: the final word of the sentence with its
trailing punctuation character removed — the ground-truth object label. -/
def sentence_label (s : PyStr) : PyStr :=
  ((pySplit sepSpace s).getLastD []).dropLast

/-! ## Python runtime errors and checked operations -/

/-- The Python exceptions the embedded code can raise. -/
inductive PyErr : Type where
  /-- An out-of-range sequence index (`IndexError`). -/
  | indexError : PyErr
  /-- An explicit `raise ValueError(...)`. -/
  | valueError (msg : String) : PyErr
  /-- A failed `assert` statement. -/
  | assertError : PyErr
  /-- An unresolvable variable name (`NameError`). -/
  | nameError (name : String) : PyErr
  /-- A diverging loop exceeded the modelling fuel (no Python analogue;
  kept distinct so that theorems cannot confuse it with a real error). -/
  | fuelExhausted : PyErr
deriving DecidableEq, Repr

/-- Sequential composition of fallible computations (Python statements
propagate exceptions). -/
def ebind {α β : Type} (x : Except PyErr α) (f : α → Except PyErr β) : Except PyErr β :=
  match x with
  | .error e => .error e
  | .ok a => f a

/-- Python sequence indexing `l[i]` with negative-index support: a negative
`i` counts from the end, and any out-of-range access raises `IndexError`. -/
def pyGet {α : Type} (l : List α) (i : Int) : Except PyErr α :=
  let j : Int := if i < 0 then i + l.length else i
  if 0 ≤ j then
    match l.get? j.toNat with
    | some a => .ok a
    | none => .error .indexError
  else .error .indexError

/-- Python list assignment `l[i] = v` with negative-index support. -/
def pySet {α : Type} (l : List α) (i : Int) (v : α) : Except PyErr (List α) :=
  let j : Int := if i < 0 then i + l.length else i
  if 0 ≤ j ∧ j < l.length then
    .ok (l.set j.toNat v)
  else
    .error .indexError

/-- Mapping a fallible function over a list, stopping at the first error
(the shape of every `for`-loop that appends one element per iteration). -/
def exMapList {α β : Type} (f : α → Except PyErr β) : List α → Except PyErr (List β)
  | [] => .ok []
  | a :: t => ebind (f a) fun b => ebind (exMapList f t) fun bs => .ok (b :: bs)

/-! ## The tokenization and alignment layer

The external tokenizer (§6 model-boundary contract): `encode` maps a word to
its token ids (for llama-like tokenizers index 0 is the BOS marker and index
1 the content token); `tok` maps one prompt of a batch call to its token ids;
`padId` is the padding id used by `padding=True`. -/

structure Tokenizer : Type where
  encode : PyStr → List Nat
  tok : PyStr → List Nat
  padId : Nat

/-- The padded sequence length of `tokenizer(prompts, padding=True)`: the
maximum per-prompt token count of this specific batch. -/
def batchMaxLen (T : Tokenizer) (prompts : List PyStr) : Nat :=
  (prompts.map fun p => (T.tok p).length).foldr max 0

/-- One row of the padded `input_ids` batch. -/
def padRow (T : Tokenizer) (L : Nat) (p : PyStr) : List Nat :=
  T.tok p ++ List.replicate (L - (T.tok p).length) T.padId

/-- One row of the `attention_mask` batch: 1 on real tokens, 0 on padding. -/
def attnRow (T : Tokenizer) (L : Nat) (p : PyStr) : List Nat :=
  List.replicate (T.tok p).length 1 ++ List.replicate (L - (T.tok p).length) 0

/-- The batch `tokenizer(prompts, padding=True, return_tensors="pt")["input_ids"]`. -/
def batchInputIds (T : Tokenizer) (prompts : List PyStr) : List (List Nat) :=
  prompts.map (padRow T (batchMaxLen T prompts))

/-- The batch `tokenizer(prompts, padding=True, return_tensors="pt")["attention_mask"]`. -/
def batchAttnMask (T : Tokenizer) (prompts : List PyStr) : List (List Nat) :=
  prompts.map (attnRow T (batchMaxLen T prompts))

/-- The vector `input_tokens["attention_mask"].sum(dim=1) - 1`: the per-row last-token
index, recomputed from the attention mask of this batch. -/
def batchLastTokenIndices (T : Tokenizer) (prompts : List PyStr) : List Int :=
  (batchAttnMask T prompts).map fun row => (row.sum : Int) - 1

/-! ## The global random module

Python's `random` module is a deterministic generator (a Mersenne twister)
whose outputs are a pure function of its seeded state.  It is embedded as an
abstract stream of raw draws together with a cursor; every sampling helper
consumes draws from the stream.  Determinism of the underlying generator is
exactly what this embedding makes explicit. -/

structure RState : Type where
  stream : Nat → Nat
  cursor : Nat

/-- Consume one raw draw. -/
def RState.next (st : RState) : Nat × RState :=
  (st.stream st.cursor, ⟨st.stream, st.cursor + 1⟩)

/-- A draw uniform on `[0, n)` (model of `random._randbelow(n)`, `n > 0`). -/
def randBelow (n : Nat) (st : RState) : Nat × RState :=
  let (v, st') := st.next
  (v % n, st')

/-- Python `random.randint(a, b)`: an integer draw INCLUSIVE of both endpoints
(`randint(a, b) == randrange(a, b + 1)` in the Python documentation). -/
def randIntIncl (a b : Nat) (st : RState) : Nat × RState :=
  let (v, st') := st.next
  (a + v % (b - a + 1), st')

/-- Python `random.choice(l)`: uniform element of `l`; raises `IndexError` on an
empty sequence. -/
def pyChoice {α : Type} (l : List α) (st : RState) : Except PyErr (α × RState) :=
  match l with
  | [] => .error .indexError
  | a :: t =>
    let (i, st') := randBelow (a :: t).length st
    .ok ((a :: t).getD i a, st')

/-- Auxiliary recursion for `pyShuffle`, with fuel equal to the list length. -/
def pyShuffleAux {α : Type} : Nat → List α → RState → List α × RState
  | 0, l, st => (l, st)
  | _ + 1, [], st => ([], st)
  | fuel + 1, a :: t, st =>
    let (i, st') := randBelow (a :: t).length st
    let x := (a :: t).getD i a
    let rest := (a :: t).eraseIdx i
    let (tail, st'') := pyShuffleAux fuel rest st'
    (x :: tail, st'')

/-- Python `random.shuffle(l)`: a permutation of `l` determined entirely by the
generator state (model of the Fisher-Yates loop: each step consumes one
draw to select the next element). -/
def pyShuffle {α : Type} (l : List α) (st : RState) : List α × RState :=
  pyShuffleAux l.length l st

/-! ## The Python computation monad

A stateful, fallible computation: it threads the global random state and can
raise a `PyErr`.  Explicit `pbind` chains are used instead of `do`-notation
so that every theorem can unfold the control flow directly. -/

def PyM (α : Type) : Type := RState → Except PyErr (α × RState)

/-- Return a pure value. -/
def ppure {α : Type} (a : α) : PyM α := fun st => .ok (a, st)

/-- Sequencing: run `m`, then feed its value to `f` (exceptions propagate). -/
def pbind {α β : Type} (m : PyM α) (f : α → PyM β) : PyM β := fun st =>
  match m st with
  | .error e => .error e
  | .ok (a, st') => f a st'

/-- Raise an exception. -/
def praise {α : Type} (e : PyErr) : PyM α := fun _ => .error e

/-- Lift a fallible, state-free computation. -/
def pliftE {α : Type} (x : Except PyErr α) : PyM α := fun st =>
  match x with
  | .error e => .error e
  | .ok a => .ok (a, st)

/-- Lift a state-consuming, infallible computation. -/
def pliftR {α : Type} (f : RState → α × RState) : PyM α := fun st => .ok (f st)

/-- Lift a state-consuming, fallible computation. -/
def pliftER {α : Type} (f : RState → Except PyErr (α × RState)) : PyM α := f

/-- The value of a run, with the final generator state projected away. -/
def PyM.runE {α : Type} (m : PyM α) (st : RState) : Except PyErr α :=
  match m st with
  | .error e => .error e
  | .ok (a, _) => .ok a

/-- A `for`-loop that appends one record per iteration. -/
def pmapList {α β : Type} (f : α → PyM β) : List α → PyM (List β)
  | [] => ppure []
  | a :: t => pbind (f a) fun b => pbind (pmapList f t) fun bs => ppure (b :: bs)

/-! ## Prompt editors, part 1: deterministic digit-relabel editor

`change_box_label` (src/data/data_utils.py:8-42): for each of the first
`num_samples` dataset sentences it appends the base prompt (sentence minus
its final word) and a source prompt in which the digit box labels are
substituted (`" 0"->" 6"`, `" 1"->" 4"`, `" 2"->" 9"`), and appends the
sentence's own answer token twice; the whole prompt list is then tokenized
as one padded batch. -/

/-- The pattern `" 0"`. -/
def patZero : PyStr := (" 0").data
/-- The pattern `" 6"`. -/
def patSix : PyStr := (" 6").data
/-- The pattern `" 1"`. -/
def patOne : PyStr := (" 1").data
/-- The pattern `" 4"`. -/
def patFour : PyStr := (" 4").data
/-- The pattern `" 2"`. -/
def patTwo : PyStr := (" 2").data
/-- The pattern `" 9"`. -/
def patNine : PyStr := (" 9").data

/-- The three chained `.replace` calls of `change_box_label`. -/
def relabel_digits (s : PyStr) : PyStr :=
  pyReplace patTwo patNine (pyReplace patOne patFour (pyReplace patZero patSix s))

/-- The interleaved per-sentence pair list built by a loop that appends
`f i` and then `g i` on iteration `i`. -/
def flatMapPairs {α : Type} (f g : Nat → α) (n : Nat) : List α :=
  (List.range n).flatMap fun i => [f i, g i]

/-- The list in which every element of `l` is appended twice in a row. -/
def dupEach {α : Type} (l : List α) : List α :=
  l.flatMap fun a => [a, a]

/-- The prompt list built by the `change_box_label` loop: base prompt of
sentence `i` at index `2*i`, digit-relabeled source prompt at `2*i+1`. -/
def cbl_prompts (data : List PyStr) (n : Nat) : List PyStr :=
  flatMapPairs
    (fun i => strip_last_word (data.getD i []))
    (fun i => relabel_digits (strip_last_word (data.getD i [])))
    n

/-- The editor `change_box_label`: checks `assert num_samples <= len(data)`, computes
each sentence's answer token `tokenizer.encode(label)[1]` (an `IndexError`
if the encoding is shorter than two ids), builds the interleaved prompt
list, and returns the padded batch ids, the per-row last-token indices and
the interleaved answer tokens. -/
def change_box_label (T : Tokenizer) (num_samples : Nat) (data : List PyStr) :
    Except PyErr (List (List Nat) × List Int × List Nat) :=
  if num_samples ≤ data.length then
    ebind (exMapList
        (fun i => pyGet (T.encode (sentence_label (data.getD i []))) 1)
        (List.range num_samples)) fun perSentence =>
    .ok (batchInputIds T (cbl_prompts data num_samples),
         batchLastTokenIndices T (cbl_prompts data num_samples),
         dupEach perSentence)
  else .error .assertError

/-- Python `range(start, stop, step)` for a positive step. -/
def pyRange (start stop step : Nat) : List Nat :=
  (List.range ((stop - start + step - 1) / step)).map fun i => start + i * step

/-- One iteration of the `change_query_box_pos` loop: pick the base row at
even index `i` and the source row at `i + 1` of the underlying generator's
interleaved output. -/
def cqbp_one (input_ids : List (List Nat)) (last_token_indices : List Int)
    (output_ids : List Nat) (i : Nat) :
    Except PyErr (List Nat × Int × List Nat × Int × Nat) :=
  ebind (pyGet input_ids i) fun b =>
  ebind (pyGet last_token_indices i) fun bp =>
  ebind (pyGet input_ids (i + 1)) fun s =>
  ebind (pyGet last_token_indices (i + 1)) fun sp =>
  ebind (pyGet output_ids i) fun c =>
  .ok (b, bp, s, sp, c)

/-- The sampler `change_query_box_pos` (src/data/data_utils.py:166-206): drives
`change_box_label` and splits its interleaved output with
`for i in range(0, num_samples, 2)` into five parallel sequences. -/
def change_query_box_pos (T : Tokenizer) (num_samples : Nat) (data : List PyStr) :
    Except PyErr (List (List Nat) × List Int × List (List Nat) × List Int × List Nat) :=
  ebind (change_box_label T num_samples data) fun out =>
  ebind (exMapList (cqbp_one out.1 out.2.1 out.2.2) (pyRange 0 num_samples 2))
    fun recs =>
  .ok (recs.map (fun r => r.1),
       recs.map (fun r => r.2.1),
       recs.map (fun r => r.2.2.1),
       recs.map (fun r => r.2.2.2.1),
       recs.map (fun r => r.2.2.2.2))

/-! ## Prompt editors, part 2: entity-tracking sampler -/

/-- The four llama-like architecture tags of the label-extraction branch. -/
def llamaArchs : List PyStr :=
  [("AlignableLlamaForCausalLM").data, ("LLaMAForCausalLM").data,
   ("LlamaForCausalLM").data, ("LlaMAForCausalLM").data]

/-- The GPT-2 architecture tag. -/
def gpt2Arch : PyStr := ("GPT2LMHeadModel").data

/-- The architecture-dependent answer-token extraction shared by
`entity_tracking_example_sampler` and `random_samples`: llama-like
tokenizers use index 1 (index 0 is the BOS marker), GPT-2 uses index 0, any
other tag raises `ValueError(f"Unknown architecture {architecture}")`. -/
def label_token_for (T : Tokenizer) (architecture : PyStr) (label : PyStr) :
    Except PyErr Nat :=
  if llamaArchs.contains architecture then pyGet (T.encode label) 1
  else if architecture == gpt2Arch then pyGet (T.encode label) 0
  else .error (.valueError ("Unknown architecture"))

/-- The sampler `entity_tracking_example_sampler` (src/data/data_utils.py:1966-1996):
base prompts and answer tokens for the first `num_samples` sentences, as a
padded batch. -/
def entity_tracking_example_sampler (T : Tokenizer) (num_samples : Nat)
    (data : List PyStr) (architecture : PyStr) :
    Except PyErr (List (List Nat) × List Int × List Nat) :=
  if num_samples ≤ data.length then
    ebind (exMapList
        (fun i => label_token_for T architecture (sentence_label (data.getD i [])))
        (List.range num_samples)) fun labels =>
    let prompts := (List.range num_samples).map fun i => strip_last_word (data.getD i [])
    .ok (batchInputIds T prompts, batchLastTokenIndices T prompts, labels)
  else .error .assertError

/-! ## Prompt editors, part 3: `alter_box_object_association`

src/data/data_utils.py:300-391.  The query-label lookup of lines 313-319 is
embedded verbatim: it enumerates `base_query.split(". ")[0].split(", ")`
(the segments of the QUERY string itself, not of the context) and selects
the first segment for which Python's substring test `label in segment`
holds; the comprehension indexing `[...][0]` raises `IndexError` when no
segment matches, and the subsequent `if base_query_box_pos == -1: raise
ValueError(...)` guard can therefore never fire. -/

/-- The pattern `" is in"`. -/
def patIsIn : PyStr := (" is in").data
/-- The pattern `" is not in"`. -/
def patIsNotIn : PyStr := (" is not in").data

/-- Lines 312-319 (and identically lines 927-934 of
`diff_index_query_box`): strip the final word, take the query (the last
`". "`-piece), take the label (`query.split(" ")[1]`), and scan the
`", "`-pieces of `base_query.split(". ")[0]` — the query string itself —
for the first piece containing the label as a substring. -/
def alter_base_query_box_pos (sentence : PyStr) : Except PyErr Nat :=
  let base_prompt := strip_last_word sentence
  let base_query := (pySplit sepDot base_prompt).getLastD []
  ebind (pyGet (pySplit sepSpace base_query) 1) fun base_query_box_label =>
  match (pySplit sepComma ((pySplit sepDot base_query).getD 0 [])).findIdx?
      (fun segment => isInfixOfL base_query_box_label segment) with
  | some idx => .ok idx
  | none => .error .indexError

/-- The context segments of a sentence's base prompt: the `", "`-pieces of
`base_prompt.split(". ")[0]`. -/
def contextSegments (sentence : PyStr) : List PyStr :=
  pySplit sepComma ((pySplit sepDot (strip_last_word sentence)).getD 0 [])

/-- The query box label of a sentence: `base_prompt.split(". ")[-1].split(" ")[1]`. -/
def queryBoxLabel (sentence : PyStr) : Except PyErr PyStr :=
  pyGet (pySplit sepSpace ((pySplit sepDot (strip_last_word sentence)).getLastD [])) 1

/-- Modelled from the spec (§3 "Box Position", §8 first property): the box
position of a Template Sentence is the index of the CONTEXT segment that
literally contains the query's box label as a whole token (a whole
space-separated word), not as a substring.  This definition follows the
spec's words and exists to be compared against the source-code lookup
`alter_base_query_box_pos`. -/
def spec_whole_token_box_pos (sentence : PyStr) : Option Nat :=
  match queryBoxLabel sentence with
  | .error _ => none
  | .ok label =>
    (contextSegments sentence).findIdx? fun segment =>
      (pySplit sepSpace segment).contains label

/-- The source-sentence lookup of the rejection loop (lines 334-338): the
same first-match substring scan, but over the `", "`-pieces of
`source_prompt.split(". ")[0]` — the actual context of the source prompt. -/
def alter_source_query_box_pos (source_prompt : PyStr) : Except PyErr Nat :=
  let source_query := (pySplit sepDot source_prompt).getLastD []
  ebind (pyGet (pySplit sepSpace source_query) 1) fun source_query_box_label =>
  match (pySplit sepComma ((pySplit sepDot source_prompt).getD 0 [])).findIdx?
      (fun segment => isInfixOfL source_query_box_label segment) with
  | some idx => .ok idx
  | none => .error .indexError

/-- The rejection-sampling loop of lines 327-339: while the candidate's box
position equals the base's, draw a source index from the remaining
candidates with `random.choice`, recompute its position, and remove the
drawn index from the pool.  `random.choice` on an exhausted pool raises
`IndexError`.  Structural fuel (one unit per pool element plus one) makes
the recursion well-founded; the pool shrinks every iteration, so the fuel
can never be exhausted and the `fuelExhausted` branch is unreachable. -/
def alter_reject (data : List PyStr) (base_pos : Nat) :
    Nat → List Nat → PyM (PyStr × Nat)
  | 0, _ => praise .fuelExhausted
  | fuel + 1, random_choices =>
    pbind (pliftER (pyChoice random_choices)) fun random_source_index =>
    pbind (pliftE (pyGet data (random_source_index : Int))) fun sentence =>
    let source_prompt := strip_last_word sentence
    pbind (pliftE (alter_source_query_box_pos source_prompt)) fun source_pos =>
    let random_choices' := random_choices.erase random_source_index
    if source_pos = base_pos then
      alter_reject data base_pos fuel random_choices'
    else
      ppure (source_prompt, source_pos)

/-- Lines 341-358: negate the containment relation of the source segment at
the discovered position and reassemble the source prompt. -/
def alter_source_edit (source_prompt : PyStr) (source_query_box_pos : Nat) :
    Except PyErr PyStr :=
  let ctx := pySplit sepComma ((pySplit sepDot source_prompt).getD 0 [])
  ebind (pyGet ctx (source_query_box_pos : Int)) fun source_segment0 =>
  let source_segment := pyReplace patIsIn patIsNotIn source_segment0
  .ok (pyJoin sepComma (ctx.take source_query_box_pos)
      ++ (if source_query_box_pos ≠ 0 then sepComma else [])
      ++ source_segment
      ++ (if source_query_box_pos ≠ ctx.length - 1 then sepComma else [])
      ++ pyJoin sepComma (ctx.drop (source_query_box_pos + 1))
      ++ sepDot
      ++ (pySplit sepDot source_prompt).getLastD [])

/-- One iteration of the `alter_box_object_association` loop (lines
311-363), producing the (base prompt, source prompt, label) triple of
example `i`. -/
def alter_one (T : Tokenizer) (num_samples : Nat) (data : List PyStr) (i : Nat) :
    PyM (PyStr × PyStr × Nat) :=
  pbind (pliftE (pyGet data (i : Int))) fun sentence =>
  let base_prompt := strip_last_word sentence
  pbind (pliftE (alter_base_query_box_pos sentence)) fun base_query_box_pos =>
  pbind (pliftR (pyShuffle (List.range num_samples))) fun random_choices =>
  pbind (alter_reject data base_query_box_pos (random_choices.length + 1)
      random_choices) fun src =>
  pbind (pliftE (alter_source_edit src.1 src.2)) fun source_prompt =>
  let base_context := pySplit sepComma ((pySplit sepDot base_prompt).getD 0 [])
  pbind (pliftE (pyGet base_context (src.2 : Int))) fun seg =>
  pbind (pliftE (pyGet (pySplit sepSpace seg) 1)) fun correct_object =>
  pbind (pliftE (pyGet (T.encode correct_object) 1)) fun label =>
  ppure (base_prompt, source_prompt, label)

/-- The loop phase of `alter_box_object_association`: the three parallel
lists `base_prompts`, `source_prompts`, `labels`. -/
def alter_core (T : Tokenizer) (num_samples : Nat) (data : List PyStr) :
    PyM (List PyStr × List PyStr × List Nat) :=
  if num_samples ≤ data.length then
    pbind (pmapList (alter_one T num_samples data) (List.range num_samples))
      fun recs =>
    ppure (recs.map (fun r => r.1), recs.map (fun r => r.2.1),
           recs.map (fun r => r.2.2))
  else praise .assertError

/-- The editor `alter_box_object_association` (src/data/data_utils.py:300-391): the
loop phase followed by the two padded batch tokenizations. -/
def alter_box_object_association (T : Tokenizer) (num_samples : Nat)
    (data : List PyStr) :
    PyM (List (List Nat) × List Int × List (List Nat) × List Int × List Nat) :=
  pbind (alter_core T num_samples data) fun out =>
  ppure (batchInputIds T out.1, batchLastTokenIndices T out.1,
         batchInputIds T out.2.1, batchLastTokenIndices T out.2.1,
         out.2.2)

/-- Decidable equality of fallible results, needed to evaluate concrete
runs of the embedded code inside proofs. -/
instance {ε α : Type} [DecidableEq ε] [DecidableEq α] : DecidableEq (Except ε α) := fun x y =>
  match x, y with
  | .error e, .error e' =>
    if h : e = e' then isTrue (by rw [h]) else isFalse (fun hh => h (Except.error.inj hh))
  | .error _, .ok _ => isFalse (fun hh => Except.noConfusion hh)
  | .ok _, .error _ => isFalse (fun hh => Except.noConfusion hh)
  | .ok a, .ok b =>
    if h : a = b then isTrue (by rw [h]) else isFalse (fun hh => h (Except.ok.inj hh))

/-! ## Claims C1 and C6: the query-label lookup -/

/-- The end-to-end scenario sentence of spec §8. -/
def c1_sentence : PyStr :=
  ("The watch is in Box A, the pen is in Box B, the cup is in Box C. Box B contains pen.").data

/-- A well-formed-looking sentence whose query label `Z` appears in no
context segment (a malformed input in the sense of spec §7 taxonomy (1)). -/
def c6_sentence : PyStr :=
  ("The watch is in Box A. Box Z contains watch.").data

/-- The box label `"Z"`. -/
def labelZ : PyStr := ("Z").data

/-! ## List access helper lemmas -/

/-! ## Claim C5: the tokenization batch invariant -/

/-- A concrete tokenizer used by witnesses: one id per word plus a BOS
marker for `encode`, one id per word for batch tokenization. -/
def cTok : Tokenizer where
  encode := fun s => 0 :: (pySplit sepSpace s).map List.length
  tok := fun s => 0 :: (pySplit sepSpace s).map fun w => w.length + 1
  padId := 0

/-! ## Claim C9: `change_query_box_pos` pairs base/source rows -/

/-- The per-sentence answer token of `change_box_label`. -/
def cbl_label_of (T : Tokenizer) (data : List PyStr) (i : Nat) : Nat :=
  (T.encode (sentence_label (data.getD i []))).getD 1 0

/-- A concrete two-sentence dataset for witnesses. -/
def c9_data : List PyStr :=
  [("The pen is in Box 0. Box 0 contains pen.").data,
   ("The cup is in Box 1. Box 1 contains cup.").data]

/-! ## Claim C4: `compute_topk_components`

src/analysis_utils.py:111-121.  `torch.topk(scores.flatten(), k)` ranks the
flattened (row-major) entries by value — largest first when `largest=True`,
smallest first otherwise — resolving equal values in favour of the lower
flattened index; it raises when `k` exceeds the number of entries, embedded
here as `none`.  The flattened ranks are then converted to (row, column)
pairs by integer division and modulo on `scores.shape[1]`. -/

/-- The flattened-rank order used by top-k with `largest=True`: `i` ranks
before `j` when its value is greater, or on a tie when its index is lower. -/
abbrev relTop (v : List ℚ) (i j : Nat) : Prop :=
  v.getD j 0 < v.getD i 0 ∨ (v.getD i 0 = v.getD j 0 ∧ i ≤ j)

/-- The flattened-rank order used by top-k with `largest=False`. -/
abbrev relBot (v : List ℚ) (i j : Nat) : Prop :=
  v.getD i 0 < v.getD j 0 ∨ (v.getD i 0 = v.getD j 0 ∧ i ≤ j)

instance (v : List ℚ) : IsTotal Nat (relTop v) := by
  constructor
  intro i j
  rcases lt_trichotomy (v.getD i 0) (v.getD j 0) with h | h | h
  · exact Or.inr (Or.inl h)
  · rcases le_total i j with hij | hij
    · exact Or.inl (Or.inr ⟨h, hij⟩)
    · exact Or.inr (Or.inr ⟨h.symm, hij⟩)
  · exact Or.inl (Or.inl h)

instance (v : List ℚ) : IsTrans Nat (relTop v) := by
  constructor
  intro a b c hab hbc
  rcases hab with hab | hab <;> rcases hbc with hbc | hbc
  · exact Or.inl (lt_trans hbc hab)
  · exact Or.inl (by rw [← hbc.1]; exact hab)
  · exact Or.inl (by rw [hab.1]; exact hbc)
  · exact Or.inr ⟨hab.1.trans hbc.1, le_trans hab.2 hbc.2⟩

instance (v : List ℚ) : IsTotal Nat (relBot v) := by
  constructor
  intro i j
  rcases lt_trichotomy (v.getD i 0) (v.getD j 0) with h | h | h
  · exact Or.inl (Or.inl h)
  · rcases le_total i j with hij | hij
    · exact Or.inl (Or.inr ⟨h, hij⟩)
    · exact Or.inr (Or.inr ⟨h.symm, hij⟩)
  · exact Or.inr (Or.inl h)

instance (v : List ℚ) : IsTrans Nat (relBot v) := by
  constructor
  intro a b c hab hbc
  rcases hab with hab | hab <;> rcases hbc with hbc | hbc
  · exact Or.inl (lt_trans hab hbc)
  · exact Or.inl (by rw [← hbc.1]; exact hab)
  · exact Or.inl (by rw [hab.1]; exact hbc)
  · exact Or.inr ⟨hab.1.trans hbc.1, le_trans hab.2 hbc.2⟩

/-- The ranking `torch.topk(v, k, largest).indices` on a flattened score vector. -/
def topkFlatIndices (v : List ℚ) (k : Nat) (largest : Bool) : List Nat :=
  if largest then ((List.range v.length).insertionSort (relTop v)).take k
  else ((List.range v.length).insertionSort (relBot v)).take k

/-- The utility `compute_topk_components`: flatten the 2D grid row-major, rank with
`torch.topk` (an error — `none` — when `k` exceeds the entry count), and
convert every flattened rank to a `[row, column]` pair by integer division
and modulo on the grid's column count `patching_scores.shape[1]`. -/
def compute_topk_components (patching_scores : List (List ℚ)) (k : Nat)
    (largest : Bool) : Option (List (List Nat)) :=
  if k ≤ (patching_scores.flatMap id).length then
    some ((topkFlatIndices (patching_scores.flatMap id) k largest).map fun i =>
      [i / (patching_scores.headD []).length, i % (patching_scores.headD []).length])
  else none

/-- The strict selection order the claim describes: entry `i` beats entry
`j` when its value is strictly better for the requested direction, or on a
tie when its flattened (row-major) index is strictly lower. -/
def beats (v : List ℚ) (largest : Bool) (i j : Nat) : Prop :=
  if largest then v.getD j 0 < v.getD i 0 ∨ (v.getD i 0 = v.getD j 0 ∧ i < j)
  else v.getD i 0 < v.getD j 0 ∨ (v.getD i 0 = v.getD j 0 ∧ i < j)

/-! ## Claims C3 and C7: `perf_metric`

src/analysis_utils.py:88-108.  The embedded arithmetic follows IEEE-754
semantics over exact rationals with explicit `nan` and signed infinities (a
torch float division by zero does not fault: `0/0` is `nan`, `x/0` for
`x ≠ 0` a signed infinity).  `torch.log_softmax` is an external numeric
kernel (it computes real logarithms) and is therefore a parameter, exactly
like the model boundary; nothing below depends on its values.  The final
statement of the source function is `return score / batch_size`, and no
variable named `batch_size` exists in the function's scope, in the enclosing
module, or in the builtins — the module `analysis_utils` binds only `math`,
`torch`, `einsum`, `TraceDict` and its four functions — so the name lookup
performed by that statement fails with `NameError`. -/

/-- A torch scalar: an exact value, `nan`, or a signed infinity. -/
inductive PyFloat : Type where
  /-- An ordinary (finite) value, idealized as an exact rational. -/
  | num (q : ℚ) : PyFloat
  /-- Not-a-number. -/
  | nan : PyFloat
  /-- Positive infinity. -/
  | inf : PyFloat
  /-- Negative infinity. -/
  | ninf : PyFloat
deriving DecidableEq, Repr

/-- IEEE-style addition. -/
def pyAdd : PyFloat → PyFloat → PyFloat
  | .num a, .num b => .num (a + b)
  | .nan, _ => .nan
  | _, .nan => .nan
  | .inf, .ninf => .nan
  | .ninf, .inf => .nan
  | .inf, _ => .inf
  | _, .inf => .inf
  | .ninf, _ => .ninf
  | _, .ninf => .ninf

/-- IEEE-style subtraction. -/
def pySub : PyFloat → PyFloat → PyFloat
  | .num a, .num b => .num (a - b)
  | .nan, _ => .nan
  | _, .nan => .nan
  | .inf, .inf => .nan
  | .ninf, .ninf => .nan
  | .inf, _ => .inf
  | _, .inf => .ninf
  | .ninf, _ => .ninf
  | _, .ninf => .inf

/-- IEEE-style division: `0/0` is `nan`, `x/0` for `x ≠ 0` a signed
infinity, and no branch raises. -/
def pyDiv : PyFloat → PyFloat → PyFloat
  | .num a, .num b =>
    if b = 0 then
      if a = 0 then .nan else if 0 < a then .inf else .ninf
    else .num (a / b)
  | .nan, _ => .nan
  | _, .nan => .nan
  | .inf, .inf => .nan
  | .inf, .ninf => .nan
  | .ninf, .inf => .nan
  | .ninf, .ninf => .nan
  | .inf, .num b => if 0 ≤ b then .inf else .ninf
  | .ninf, .num b => if 0 ≤ b then .ninf else .inf
  | .num _, .inf => .num 0
  | .num _, .ninf => .num 0

/-- The global names of module `analysis_utils` that are bound to scalar
values: there are none, and in particular none named `batch_size`. -/
def analysisUtilsGlobals : List (String × PyFloat) := []

/-- Python name resolution for the free variables of `perf_metric`: a name
not bound in any enclosing scope raises `NameError`. -/
def lookupName (env : List (String × PyFloat)) (n : String) : Except PyErr PyFloat :=
  match env.find? (fun p => p.1 == n) with
  | some p => .ok p.2
  | none => .error (.nameError n)

/-- The metric `perf_metric` (src/analysis_utils.py:88-108): log-softmax rows of the
three logit tensors at their respective last-token positions (`[0, pos]`
tensor indexing raises `IndexError` when out of range, and the position of
the clean run is the literal `-1`), then
`score += (patched[answer] - corrupt[answer]) / (clean[answer] - corrupt[answer])`,
then `return score / batch_size`, whose name lookup for `batch_size` is
resolved against the function's scope and the module globals. -/
def perf_metric (logSoftmax : List PyFloat → List PyFloat)
    (patched_logits : List (List (List PyFloat))) (answer : Int)
    (base_logits source_logits : List (List (List PyFloat)))
    (base_last_token_pos source_last_token_pos : Int) : Except PyErr PyFloat :=
  let score : PyFloat := .num 0
  ebind (pyGet patched_logits 0) fun prows =>
  ebind (pyGet prows base_last_token_pos) fun prow =>
  let patched := logSoftmax prow
  ebind (pyGet source_logits 0) fun srows =>
  ebind (pyGet srows source_last_token_pos) fun srow =>
  let corrupt := logSoftmax srow
  ebind (pyGet base_logits 0) fun brows =>
  ebind (pyGet brows (-1)) fun brow =>
  let clean := logSoftmax brow
  ebind (pyGet patched answer) fun pa =>
  ebind (pyGet corrupt answer) fun ca =>
  ebind (pyGet clean answer) fun cla =>
  let numerator := pySub pa ca
  let denominator := pySub cla ca
  let score := pyAdd score (pyDiv numerator denominator)
  ebind (lookupName analysisUtilsGlobals ("batch_size")) fun batch_size =>
  .ok (pyDiv score batch_size)

/-- Is a fallible computation's result a value (no exception)? -/
def isOkE {α : Type} : Except PyErr α → Bool
  | .ok _ => true
  | .error _ => false

/-! ## Claim C10: `random_samples`

src/data/data_utils.py:2090-2131.  Each iteration draws a dataset index
with `random.randint(0, len(data))` — a draw INCLUSIVE of `len(data)` —
redrawing while the index was already used, then reads `data[i]`. -/

/-- The draw-until-fresh loop (lines 2101-2103), with structural fuel:
`i = random.randint(0, len(data))`, redrawn while `i in existing_indices`. -/
def rs_draw (data : List PyStr) (existing : List Nat) : Nat → PyM Nat
  | 0 => praise .fuelExhausted
  | fuel + 1 =>
    pbind (pliftR (randIntIncl 0 data.length)) fun i =>
    if existing.contains i then rs_draw data existing fuel else ppure i

/-- One iteration of the `random_samples` loop: draw a fresh index, then
read `data[i]` (an `IndexError` when the draw is out of range) and compute
the prompt and the architecture-branched answer token. -/
def rs_one (T : Tokenizer) (data : List PyStr) (architecture : PyStr)
    (existing : List Nat) : PyM (Nat × PyStr × Nat) :=
  pbind (rs_draw data existing (data.length + existing.length + 2)) fun i =>
  pbind (pliftE (pyGet data (i : Int))) fun sentence =>
  pbind (pliftE (label_token_for T architecture (sentence_label sentence)))
    fun lab =>
  ppure (i, strip_last_word sentence, lab)

/-- The `for _ in range(num_samples)` loop, accumulating the used indices. -/
def rs_loop (T : Tokenizer) (data : List PyStr) (architecture : PyStr) :
    Nat → List Nat → PyM (List (PyStr × Nat))
  | 0, _ => ppure []
  | m + 1, existing =>
    pbind (rs_one T data architecture existing) fun r =>
    pbind (rs_loop T data architecture m (existing ++ [r.1])) fun rest =>
    ppure ((r.2.1, r.2.2) :: rest)

/-- The sampler `random_samples`: the assert, the sampling loop, and the padded batch
tokenization of the collected prompts. -/
def random_samples (T : Tokenizer) (num_samples : Nat) (data : List PyStr)
    (architecture : PyStr) :
    PyM (List (List Nat) × List Int × List Nat) :=
  if num_samples ≤ data.length then
    pbind (rs_loop T data architecture num_samples []) fun recs =>
    ppure (batchInputIds T (recs.map fun r => r.1),
           batchLastTokenIndices T (recs.map fun r => r.1),
           recs.map fun r => r.2)
  else praise .assertError

/-- The llama architecture tag used by concrete runs. -/
def cArch : PyStr := ("LlamaForCausalLM").data

/-- A generator state whose next raw draw is 2. -/
def cStateTwo : RState := ⟨fun _ => 2, 0⟩

/-! ## Claim C2: `box_index_aligner_examples`

src/data/data_utils.py:2134-2193.  The loop appends one element to each of
six lists per produced example; the seventh returned list,
`all_incorrect_output_ids`, is initialized empty at line 2154 and never
appended to anywhere in the function body, yet is returned at line 2192. -/

/-- The seven sequences returned by `box_index_aligner_examples`. -/
structure AlignerOut : Type where
  base_ids : List (List Nat)
  base_pos : List Int
  src_ids : List (List Nat)
  src_pos : List Int
  ctf : List Nat
  interv : List Nat
  incorrect : List Nat
deriving DecidableEq, Repr

/-- The per-iteration record: the element each of the six live lists
receives on one pass of the inner loop body. -/
structure AlignerRec : Type where
  base_ids : List Nat
  base_pos : Int
  src_ids : List Nat
  src_pos : Int
  ctf : Nat
  interv : Nat
deriving DecidableEq, Repr

/-- The iteration space of the nested loop
`for i in range(0, num_samples, k): for j in range(k): if i + j >= num_samples: break`
(the guard is monotone in `j`, so the break is a `takeWhile`). -/
def loopPairs (N k : Nat) : List (Nat × Nat) :=
  (pyRange 0 N k).flatMap fun i =>
    ((List.range k).takeWhile fun j => i + j < N).map fun j => (i, j)

/-- One pass of the loop body (lines 2161-2183): base row `i + j`, a random
source row `choice(range(0, N - (j+1) % k, k)) + (j+1) % k` whose query box
label token (position `-3`) is overwritten by a random uppercase letter
(`chr(randint(65, 90))`, tokenized and read at `input_ids[0, 1]`), and the
constant intervention id 0. -/
def aligner_one (T : Tokenizer) (ids : List (List Nat)) (lastI : List Int)
    (out : List Nat) (N k : Nat) (ij : Nat × Nat) : PyM AlignerRec :=
  pbind (pliftE (pyGet ids ((ij.1 + ij.2 : Nat) : Int))) fun b =>
  pbind (pliftE (pyGet lastI ((ij.1 + ij.2 : Nat) : Int))) fun bp =>
  pbind (pliftE (pyGet out ((ij.1 + ij.2 : Nat) : Int))) fun c =>
  pbind (pliftER (pyChoice (pyRange 0 (N - (ij.2 + 1) % k) k))) fun ch =>
  let random_source_index := ch + (ij.2 + 1) % k
  pbind (pliftE (pyGet ids (random_source_index : Int))) fun src0 =>
  pbind (pliftR (randIntIncl 65 90)) fun a =>
  let random_alphabet : PyStr := [Char.ofNat a]
  pbind (pliftE (pyGet (T.tok random_alphabet) 1)) fun random_alphabet_token =>
  pbind (pliftE (pySet src0 (-3) random_alphabet_token)) fun src =>
  pbind (pliftE (pyGet lastI (random_source_index : Int))) fun sp =>
  ppure ⟨b, bp, src, sp, c, 0⟩

/-- The aligner `box_index_aligner_examples`: run the sampler, iterate the loop body
over the iteration space (`range` with a zero step raises `ValueError`),
and return the six accumulated sequences plus the never-touched
`all_incorrect_output_ids`, which is the empty list it was initialized to. -/
def box_index_aligner_examples (T : Tokenizer) (num_samples num_ents_or_ops : Nat)
    (data : List PyStr) (architecture : PyStr) : PyM AlignerOut :=
  pbind (pliftE (entity_tracking_example_sampler T num_samples data architecture))
    fun ets =>
  if num_ents_or_ops = 0 then praise (.valueError ("range() arg 3 must not be zero"))
  else
    pbind (pmapList (aligner_one T ets.1 ets.2.1 ets.2.2 num_samples num_ents_or_ops)
        (loopPairs num_samples num_ents_or_ops)) fun recs =>
    ppure ⟨recs.map (fun r => r.base_ids), recs.map (fun r => r.base_pos),
           recs.map (fun r => r.src_ids), recs.map (fun r => r.src_pos),
           recs.map (fun r => r.ctf), recs.map (fun r => r.interv), []⟩

/-- The value of the concrete aligner run used by the C2 witness. -/
def c2_out : AlignerOut :=
  match PyM.runE (box_index_aligner_examples cTok 1 1 c9_data cArch) cStateTwo with
  | .ok r => r
  | .error _ => ⟨[], [], [], [], [], [], []⟩

/-! ## Claim C8: `object_alignment_example_generator` and determinism

src/data/data_utils.py:79-163.  The object vocabulary (`objects["object_name"]`)
is read from an external CSV and is passed in as a list. -/

/-- The priming examples prepended when `alt_examples` and `few_shot` hold
(the source's `priminig_examples` string, line 91, name as in the source). -/
def priminig_examples : PyStr :=
  ("Watch is in Box 0, nothing is in Box 1, bottle is in Box 2. Box 2 contains bottle.\n Wire is in Box 0, biscotti is in Box 1, camera is in Box 2. Box 1 contains biscotti.\n Nothing is in Box 0, tetrapod is in Box 1, incense is in Box 2. Box 0 contains nothing.\n ").data

/-- Python's `int(s)` on a decimal digit string; anything else raises
`ValueError`. -/
def pyInt (s : PyStr) : Except PyErr Nat :=
  if s ≠ [] ∧ s.all (fun c => c.isDigit) then
    .ok (s.foldl (fun acc c => acc * 10 + (c.toNat - 48)) 0)
  else .error (.valueError ("invalid literal for int()"))

/-- Python `s[0].upper() + s[1:]`: capitalize the first character; `s[0]` on the
empty string raises `IndexError`. -/
def pyCapFirst (s : PyStr) : Except PyErr PyStr :=
  match s with
  | [] => .error .indexError
  | c :: t => .ok (c.toUpper :: t)

/-- The per-example record of `object_alignment_example_generator`: the
original-object example followed by the random-object example. -/
structure OaegRec : Type where
  prompt1 : PyStr
  label1 : Nat
  objTokens1 : List Nat
  prompt2 : PyStr
  label2 : Nat
  objTokens2 : List Nat
deriving DecidableEq, Repr

/-- One iteration of the `object_alignment_example_generator` loop (lines
95-144): the base example (answer token, lowered per-segment objects at
word index 0 or 3, base prompt with optional priming), then the random
substitution example (the queried segment's object — word 0 for
`alt_examples`, last word otherwise — replaced once by a random vocabulary
object, capitalized at segment start when `alt_examples` and the query box
is 0, with the answer re-encoded from the lowered substitute). -/
def oaeg_one (T : Tokenizer) (objects : List PyStr) (few_shot alt_examples : Bool)
    (data : List PyStr) (i : Nat) : PyM OaegRec :=
  pbind (pliftE (pyGet data (i : Int))) fun sentence =>
  pbind (pliftE (pyGet (T.encode (sentence_label sentence)) 1)) fun label1 =>
  let object_index_in_segment : Int := if alt_examples then 0 else 3
  let ctx_segments := pySplit sepComma ((pySplit sepPeriod sentence).getD 0 [])
  pbind (pliftE (exMapList
      (fun seg => ebind (pyGet (pySplit sepSpace seg) object_index_in_segment)
        fun w => .ok (pyLower w))
      ctx_segments)) fun all_objects =>
  pbind (pliftE (exMapList (fun obj => pyGet (T.encode obj) 1) all_objects))
    fun objTokens1 =>
  let org_prompt := strip_last_word sentence
  let prompt1 := if few_shot then priminig_examples ++ org_prompt else org_prompt
  pbind (pliftE
      (pyGet (pySplit sepSpace ((pySplit sepDot org_prompt).getLastD [])) 1))
    fun box_num_str =>
  pbind (pliftE (pyInt box_num_str)) fun box_num =>
  let query := (pySplit sepDot org_prompt).getLastD []
  let clean_prompt := (pySplit sepDot org_prompt).getD 0 []
  let segs := pySplit sepComma clean_prompt
  pbind (pliftE (pyGet segs (box_num : Int))) fun seg_at =>
  pbind (pliftE (if alt_examples then pyGet (pySplit sepSpace seg_at) 0
      else pyGet (pySplit sepSpace seg_at) (-1))) fun object =>
  pbind (pliftER (pyChoice objects)) fun random_object0 =>
  pbind (pliftE (if alt_examples && box_num == 0 then pyCapFirst random_object0
      else .ok random_object0)) fun random_object =>
  let clean_prompt' :=
    pyJoin sepComma (segs.take box_num)
      ++ (if box_num ≠ 0 then sepComma else [])
      ++ pyReplaceFirst object random_object seg_at
      ++ (if box_num ≠ segs.length - 1 then sepComma else [])
      ++ pyJoin sepComma (segs.drop (box_num + 1))
  let prompt2 := if few_shot then priminig_examples ++ clean_prompt' ++ sepDot ++ query
    else clean_prompt' ++ sepDot ++ query
  pbind (pliftE (pyGet (T.encode (pyLower random_object)) 1)) fun label2 =>
  let all_objects2 := all_objects.map fun o => if o == object then random_object else o
  pbind (pliftE (exMapList (fun obj => pyGet (T.encode obj) 1) all_objects2))
    fun objTokens2 =>
  ppure ⟨prompt1, label1, objTokens1, prompt2, label2, objTokens2⟩

/-- The loop phase of `object_alignment_example_generator`: interleaved
prompts, interleaved answer tokens, interleaved per-example object tokens. -/
def object_alignment_core (T : Tokenizer) (objects : List PyStr)
    (few_shot alt_examples : Bool) (num_samples : Nat) (data : List PyStr) :
    PyM (List PyStr × List Nat × List (List Nat)) :=
  if num_samples ≤ data.length then
    pbind (pmapList (oaeg_one T objects few_shot alt_examples data)
        (List.range num_samples)) fun recs =>
    ppure (recs.flatMap (fun r => [r.prompt1, r.prompt2]),
           recs.flatMap (fun r => [r.label1, r.label2]),
           recs.flatMap (fun r => [r.objTokens1, r.objTokens2]))
  else praise .assertError

/-- The editor `object_alignment_example_generator`: the loop phase followed by the
padded batch tokenization. -/
def object_alignment_example_generator (T : Tokenizer) (objects : List PyStr)
    (few_shot alt_examples : Bool) (num_samples : Nat) (data : List PyStr) :
    PyM (List (List Nat) × List Int × List Nat × List (List Nat)) :=
  pbind (object_alignment_core T objects few_shot alt_examples num_samples data)
    fun out =>
  ppure (batchInputIds T out.1, batchLastTokenIndices T out.1, out.2.1, out.2.2)

/-! ## Theorems

The properties established about the embedded code, in the order the
supporting lemmas build on one another. -/

theorem pbind_ok_iff {α β : Type} {m : PyM α} {f : α → PyM β} {st : RState}
    {b : β} {st2 : RState} :
    pbind m f st = .ok (b, st2) ↔
      ∃ a st1, m st = .ok (a, st1) ∧ f a st1 = .ok (b, st2) := by
  unfold pbind
  cases h : m st with
  | error e => simp [h]
  | ok p =>
    cases p with
    | mk a st1 =>
      simp only [h]
      constructor
      · intro h2
        exact ⟨a, st1, rfl, h2⟩
      · rintro ⟨a1, s1, heq, h2⟩
        cases heq
        exact h2

theorem pmapList_ok_length {α β : Type} {f : α → PyM β} :
    ∀ (l : List α) (st st' : RState) (res : List β),
      pmapList f l st = .ok (res, st') → res.length = l.length := by
  intro l
  induction l with
  | nil =>
    intro st st' res h
    simp [pmapList, ppure] at h
    simp [h.1.symm]
  | cons a t ih =>
    intro st st' res h
    rw [pmapList, pbind_ok_iff] at h
    obtain ⟨b, st1, _, h2⟩ := h
    rw [pbind_ok_iff] at h2
    obtain ⟨bs, st3, h3, h4⟩ := h2
    simp [ppure] at h4
    rw [← h4.1]
    simp [ih st1 st3 bs h3]

theorem ebind_ok_iff {α β : Type} {x : Except PyErr α} {f : α → Except PyErr β}
    {b : β} :
    ebind x f = .ok b ↔ ∃ a, x = .ok a ∧ f a = .ok b := by
  unfold ebind
  cases x <;> simp

theorem exMapList_eq_ok_map {α β : Type} {f : α → Except PyErr β} {g : α → β} :
    ∀ (l : List α), (∀ a ∈ l, f a = .ok (g a)) → exMapList f l = .ok (l.map g) := by
  intro l
  induction l with
  | nil => intro _; rfl
  | cons a t ih =>
    intro h
    rw [exMapList, ebind_ok_iff]
    refine ⟨g a, h a (List.mem_cons_self a t), ?_⟩
    rw [ebind_ok_iff]
    exact ⟨t.map g, ih fun x hx => h x (List.mem_cons_of_mem a hx), rfl⟩

/-- C1: the claim states that the box position computed by the query-label
lookup is the index of the context segment containing the query's box label
as a whole token, and that for the §8 scenario sentence the computed
position for label `B` is 1.  The code instead scans the segments of the
QUERY string (`base_query.split(". ")[0].split(", ")`, not the context) with
a substring test, and computes position 0 for that sentence; the whole-token
context lookup modelled from the spec's words computes 1. -/
theorem alter_lookup_scans_query_not_context :
    alter_base_query_box_pos c1_sentence = .ok 0 ∧
    spec_whole_token_box_pos c1_sentence = some 1 ∧
    (0 : Nat) ≠ 1 := by decide

/-- C6: the claim states that on an input sentence whose query box label is
absent from every context segment the editor raises a lookup error.  On
`c6_sentence` the label is `Z`, no context segment contains `Z` even as a
substring, and yet the lookup of `alter_box_object_association` returns
position 0 and the editor proceeds: the scan runs over the query string,
which always contains its own label, so the failure branch (and the dead
`raise ValueError` guard behind it) is unreachable for any query. -/
theorem alter_lookup_no_error_on_absent_label :
    queryBoxLabel c6_sentence = .ok labelZ ∧
    (contextSegments c6_sentence).all (fun seg => !(isInfixOfL labelZ seg)) = true ∧
    spec_whole_token_box_pos c6_sentence = none ∧
    alter_base_query_box_pos c6_sentence = .ok 0 := by decide

theorem getD_map_lt {α β : Type} (f : α → β) (l : List α) (i : Nat) (d' : β) (d : α)
    (h : i < l.length) : (l.map f).getD i d' = f (l.getD i d) := by
  rw [List.getD_eq_getElem _ _ (by simpa using h), List.getD_eq_getElem _ _ h]
  simp

theorem pyGet_natCast_lt {α : Type} (l : List α) (i : Nat) (d : α) (h : i < l.length) :
    pyGet l (i : Int) = .ok (l.getD i d) := by
  unfold pyGet
  have h0 : ¬ ((i : Int) < 0) := by omega
  simp only [h0, if_false, Int.toNat_natCast]
  have h1 : (0 : Int) ≤ (i : Int) := by omega
  simp only [h1, if_true]
  rw [List.get?_eq_getElem?, List.getElem?_eq_getElem h, List.getD_eq_getElem _ _ h]

theorem getD_mem {α : Type} (l : List α) (i : Nat) (d : α) (h : i < l.length) :
    l.getD i d ∈ l := by
  rw [List.getD_eq_getElem _ _ h]
  exact List.getElem_mem h

theorem tokLen_le_batchMaxLen (T : Tokenizer) (prompts : List PyStr) (p : PyStr)
    (hp : p ∈ prompts) : (T.tok p).length ≤ batchMaxLen T prompts := by
  induction prompts with
  | nil => cases hp
  | cons q rest ih =>
    unfold batchMaxLen at *
    rcases List.mem_cons.mp hp with h | h
    · subst h
      exact le_max_left _ _
    · exact le_trans (ih h) (le_max_right _ _)

theorem attnRow_sum (T : Tokenizer) (L : Nat) (p : PyStr) :
    (attnRow T L p).sum = (T.tok p).length := by
  unfold attnRow
  simp [List.sum_replicate]

/-- C5: for every batch of prompts tokenized by any editor, each row's
last-token index equals the sum of that row's attention mask minus 1, and —
because the mask row of a prompt carries a 1 for each of its tokens, whose
count never exceeds the padded batch length — it is strictly less than the
padded sequence length of the batch. -/
theorem batch_last_token_invariant (T : Tokenizer) (prompts : List PyStr) (i : Nat)
    (h : i < prompts.length) :
    (batchLastTokenIndices T prompts).getD i 0 =
      (((batchAttnMask T prompts).getD i []).sum : Int) - 1 ∧
    (batchLastTokenIndices T prompts).getD i 0 < (batchMaxLen T prompts : Int) := by
  have hlen : i < (batchAttnMask T prompts).length := by
    unfold batchAttnMask
    simpa using h
  have h1 : (batchLastTokenIndices T prompts).getD i 0 =
      (((batchAttnMask T prompts).getD i []).sum : Int) - 1 := by
    unfold batchLastTokenIndices
    exact getD_map_lt _ _ _ _ [] hlen
  refine ⟨h1, ?_⟩
  rw [h1]
  have h2 : (batchAttnMask T prompts).getD i [] =
      attnRow T (batchMaxLen T prompts) (prompts.getD i []) := by
    unfold batchAttnMask
    exact getD_map_lt _ _ _ _ [] h
  rw [h2, attnRow_sum]
  have h3 : (T.tok (prompts.getD i [])).length ≤ batchMaxLen T prompts :=
    tokLen_le_batchMaxLen T prompts _ (getD_mem _ _ _ h)
  omega

/-- Witness for C5: the invariant holds on row 0 of a concrete two-prompt
batch. -/
theorem batch_last_token_invariant_witness :
    0 < ([("a b c").data, ("a").data] : List PyStr).length ∧
    ((batchLastTokenIndices cTok [("a b c").data, ("a").data]).getD 0 0 =
      (((batchAttnMask cTok [("a b c").data, ("a").data]).getD 0 []).sum : Int) - 1 ∧
    (batchLastTokenIndices cTok [("a b c").data, ("a").data]).getD 0 0 <
      (batchMaxLen cTok [("a b c").data, ("a").data] : Int)) :=
  ⟨by decide, batch_last_token_invariant cTok [("a b c").data, ("a").data] 0 (by decide)⟩

theorem flatMapPairs_succ {α : Type} (f g : Nat → α) (n : Nat) :
    flatMapPairs f g (n + 1) = flatMapPairs f g n ++ [f n, g n] := by
  unfold flatMapPairs
  rw [List.range_succ, List.flatMap_append]
  simp

theorem flatMapPairs_length {α : Type} (f g : Nat → α) (n : Nat) :
    (flatMapPairs f g n).length = 2 * n := by
  induction n with
  | zero => rfl
  | succ k ih =>
    rw [flatMapPairs_succ]
    simp [ih]
    omega

theorem flatMapPairs_getD_even {α : Type} (f g : Nat → α) (n m : Nat) (d : α)
    (h : m < n) : (flatMapPairs f g n).getD (2 * m) d = f m := by
  induction n with
  | zero => omega
  | succ k ih =>
    rw [flatMapPairs_succ]
    rcases Nat.lt_or_ge m k with hm | hm
    · rw [List.getD_append _ _ _ _ (by rw [flatMapPairs_length]; omega)]
      exact ih hm
    · have hmk : m = k := by omega
      subst hmk
      rw [List.getD_append_right _ _ _ _ (by rw [flatMapPairs_length])]
      rw [flatMapPairs_length]
      simp

theorem flatMapPairs_getD_odd {α : Type} (f g : Nat → α) (n m : Nat) (d : α)
    (h : m < n) : (flatMapPairs f g n).getD (2 * m + 1) d = g m := by
  induction n with
  | zero => omega
  | succ k ih =>
    rw [flatMapPairs_succ]
    rcases Nat.lt_or_ge m k with hm | hm
    · rw [List.getD_append _ _ _ _ (by rw [flatMapPairs_length]; omega)]
      exact ih hm
    · have hmk : m = k := by omega
      subst hmk
      rw [List.getD_append_right _ _ _ _ (by rw [flatMapPairs_length]; omega)]
      rw [flatMapPairs_length]
      have h3 : 2 * m + 1 - 2 * m = 1 := by omega
      simp [h3]

theorem dupEach_eq_flatMapPairs {α : Type} (l : List α) (d : α) :
    dupEach l = flatMapPairs (fun i => l.getD i d) (fun i => l.getD i d) l.length := by
  induction l using List.reverseRecOn with
  | nil => rfl
  | append_singleton t a ih =>
    unfold dupEach at *
    rw [List.flatMap_append]
    simp only [List.length_append, List.length_singleton]
    rw [flatMapPairs_succ]
    have h1 : ∀ i, i < t.length → (t ++ [a]).getD i d = t.getD i d := by
      intro i hi
      exact List.getD_append _ _ _ _ hi
    have h2 : (t ++ [a]).getD t.length d = a := by
      rw [List.getD_append_right _ _ _ _ (le_refl _)]
      simp
    rw [ih]
    simp only [List.flatMap_singleton, h2]
    congr 1
    · unfold flatMapPairs
      apply List.flatMap_congr
      intro i hi
      simp only [h1 i (List.mem_range.mp hi)]

theorem pyRange_zero_step2 (n : Nat) (h : n % 2 = 0) :
    pyRange 0 n 2 = (List.range (n / 2)).map fun i => 2 * i := by
  unfold pyRange
  have : (n - 0 + 2 - 1) / 2 = n / 2 := by omega
  rw [this]
  apply List.map_congr_left
  intro i _
  omega

theorem pyRange_zero_step2_length (n : Nat) (h : n % 2 = 0) :
    (pyRange 0 n 2).length = n / 2 := by
  rw [pyRange_zero_step2 n h]
  simp

theorem change_box_label_ok (T : Tokenizer) (data : List PyStr) (n : Nat)
    (hn : n ≤ data.length)
    (henc : ∀ i, i < n → 1 < (T.encode (sentence_label (data.getD i []))).length) :
    change_box_label T n data =
      .ok (batchInputIds T (cbl_prompts data n),
           batchLastTokenIndices T (cbl_prompts data n),
           dupEach ((List.range n).map (cbl_label_of T data))) := by
  unfold change_box_label
  rw [if_pos hn]
  rw [exMapList_eq_ok_map (g := cbl_label_of T data)]
  · rfl
  · intro i hi
    exact pyGet_natCast_lt _ _ _ (henc i (List.mem_range.mp hi))

theorem getD_range (k m d : Nat) (h : m < k) : (List.range k).getD m d = m := by
  rw [List.getD_eq_getElem _ _ (by simpa using h)]
  simp

/-- C9: for an even requested count `n`, `change_query_box_pos` returns
exactly `n / 2` example pairs (not `n`): the `m`-th pair consists of the
base prompt of dataset sentence `m` and its digit-relabeled source prompt —
the rows at even index `2*m` and at index `2*m+1` of the underlying
`change_box_label` batch — and the `m`-th counterfactual output id is that
same base sentence's own final-object token id. -/
theorem change_query_box_pos_pairs (T : Tokenizer) (data : List PyStr) (n : Nat)
    (heven : n % 2 = 0) (hn : n ≤ data.length)
    (henc : ∀ i, i < n → 1 < (T.encode (sentence_label (data.getD i []))).length) :
    ∃ res, change_query_box_pos T n data = .ok res ∧
      res.1.length = n / 2 ∧ res.2.1.length = n / 2 ∧ res.2.2.1.length = n / 2 ∧
      res.2.2.2.1.length = n / 2 ∧ res.2.2.2.2.length = n / 2 ∧
      ∀ m, m < n / 2 →
        res.1.getD m [] = (batchInputIds T (cbl_prompts data n)).getD (2 * m) [] ∧
        res.2.1.getD m 0 =
          (batchLastTokenIndices T (cbl_prompts data n)).getD (2 * m) 0 ∧
        res.2.2.1.getD m [] =
          (batchInputIds T (cbl_prompts data n)).getD (2 * m + 1) [] ∧
        res.2.2.2.1.getD m 0 =
          (batchLastTokenIndices T (cbl_prompts data n)).getD (2 * m + 1) 0 ∧
        res.1.getD m [] =
          padRow T (batchMaxLen T (cbl_prompts data n))
            (strip_last_word (data.getD m [])) ∧
        res.2.2.1.getD m [] =
          padRow T (batchMaxLen T (cbl_prompts data n))
            (relabel_digits (strip_last_word (data.getD m []))) ∧
        res.2.2.2.2.getD m 0 = cbl_label_of T data m := by
  have hcbl := change_box_label_ok T data n hn henc
  set L := batchMaxLen T (cbl_prompts data n) with hL
  set ids := batchInputIds T (cbl_prompts data n) with hids
  set lastI := batchLastTokenIndices T (cbl_prompts data n) with hlastI
  set out := dupEach ((List.range n).map (cbl_label_of T data)) with hout
  have hplen : (cbl_prompts data n).length = 2 * n := by
    unfold cbl_prompts
    exact flatMapPairs_length _ _ _
  have hids_len : ids.length = 2 * n := by
    rw [hids]
    unfold batchInputIds
    rw [List.length_map, hplen]
  have hlast_len : lastI.length = 2 * n := by
    rw [hlastI]
    unfold batchLastTokenIndices batchAttnMask
    rw [List.length_map, List.length_map, hplen]
  have hout_len : out.length = 2 * n := by
    rw [hout, dupEach_eq_flatMapPairs _ 0, flatMapPairs_length, List.length_map,
      List.length_range]
  have hone : ∀ i ∈ pyRange 0 n 2, cqbp_one ids lastI out i =
      .ok (ids.getD i [], lastI.getD i 0, ids.getD (i + 1) [],
           lastI.getD (i + 1) 0, out.getD i 0) := by
    intro i hi
    rw [pyRange_zero_step2 n heven] at hi
    obtain ⟨m, hm, rfl⟩ := List.mem_map.mp hi
    have hmlt := List.mem_range.mp hm
    have hb1 : 2 * m < ids.length := by omega
    have hb2 : 2 * m < lastI.length := by omega
    have hb3 : 2 * m + 1 < ids.length := by omega
    have hb4 : 2 * m + 1 < lastI.length := by omega
    have hb5 : 2 * m < out.length := by omega
    have hcast : ((2 * m : Nat) : Int) + 1 = (((2 * m + 1 : Nat)) : Int) := by
      push_cast
      ring
    unfold cqbp_one
    rw [pyGet_natCast_lt ids (2 * m) [] hb1]
    simp only [ebind, hcast]
    rw [pyGet_natCast_lt lastI (2 * m) 0 hb2]
    simp only [ebind]
    rw [pyGet_natCast_lt ids (2 * m + 1) [] hb3]
    simp only [ebind]
    rw [pyGet_natCast_lt lastI (2 * m + 1) 0 hb4]
    simp only [ebind]
    rw [pyGet_natCast_lt out (2 * m) 0 hb5]
  have hmap := exMapList_eq_ok_map
    (f := cqbp_one ids lastI out)
    (g := fun i => (ids.getD i [], lastI.getD i 0, ids.getD (i + 1) [],
      lastI.getD (i + 1) 0, out.getD i 0))
    (pyRange 0 n 2) hone
  have hrun : change_query_box_pos T n data =
      .ok (((pyRange 0 n 2).map fun i => ids.getD i []),
           ((pyRange 0 n 2).map fun i => lastI.getD i 0),
           ((pyRange 0 n 2).map fun i => ids.getD (i + 1) []),
           ((pyRange 0 n 2).map fun i => lastI.getD (i + 1) 0),
           ((pyRange 0 n 2).map fun i => out.getD i 0)) := by
    unfold change_query_box_pos
    rw [hcbl]
    simp only [ebind]
    rw [hmap]
    simp only [ebind, List.map_map]
    rfl
  refine ⟨_, hrun, ?_, ?_, ?_, ?_, ?_, ?_⟩
  · simp [pyRange_zero_step2_length n heven]
  · simp [pyRange_zero_step2_length n heven]
  · simp [pyRange_zero_step2_length n heven]
  · simp [pyRange_zero_step2_length n heven]
  · simp [pyRange_zero_step2_length n heven]
  intro m hm
  have hrg : m < (pyRange 0 n 2).length := by
    rw [pyRange_zero_step2_length n heven]
    exact hm
  have hpr : (pyRange 0 n 2).getD m 0 = 2 * m := by
    rw [pyRange_zero_step2 n heven, getD_map_lt _ _ _ _ 0 (by simpa using hm),
      getD_range _ _ _ hm]
  have hmn : m < n := by omega
  have e1 : ((pyRange 0 n 2).map fun i => ids.getD i []).getD m [] =
      ids.getD (2 * m) [] := by
    rw [getD_map_lt _ _ _ _ 0 hrg, hpr]
  have e2 : ((pyRange 0 n 2).map fun i => lastI.getD i 0).getD m 0 =
      lastI.getD (2 * m) 0 := by
    rw [getD_map_lt _ _ _ _ 0 hrg, hpr]
  have e3 : ((pyRange 0 n 2).map fun i => ids.getD (i + 1) []).getD m [] =
      ids.getD (2 * m + 1) [] := by
    rw [getD_map_lt _ _ _ _ 0 hrg, hpr]
  have e4 : ((pyRange 0 n 2).map fun i => lastI.getD (i + 1) 0).getD m 0 =
      lastI.getD (2 * m + 1) 0 := by
    rw [getD_map_lt _ _ _ _ 0 hrg, hpr]
  have e5 : ((pyRange 0 n 2).map fun i => out.getD i 0).getD m 0 =
      out.getD (2 * m) 0 := by
    rw [getD_map_lt _ _ _ _ 0 hrg, hpr]
  have hget_even : (cbl_prompts data n).getD (2 * m) [] =
      strip_last_word (data.getD m []) := by
    unfold cbl_prompts
    exact flatMapPairs_getD_even _ _ _ _ _ hmn
  have hget_odd : (cbl_prompts data n).getD (2 * m + 1) [] =
      relabel_digits (strip_last_word (data.getD m [])) := by
    unfold cbl_prompts
    exact flatMapPairs_getD_odd _ _ _ _ _ hmn
  have hbase : ids.getD (2 * m) [] = padRow T L (strip_last_word (data.getD m [])) := by
    rw [hids]
    unfold batchInputIds
    rw [getD_map_lt _ _ _ _ [] (by rw [hplen]; omega), hget_even, hL]
  have hsrc : ids.getD (2 * m + 1) [] =
      padRow T L (relabel_digits (strip_last_word (data.getD m []))) := by
    rw [hids]
    unfold batchInputIds
    rw [getD_map_lt _ _ _ _ [] (by rw [hplen]; omega), hget_odd, hL]
  have hctf : out.getD (2 * m) 0 = cbl_label_of T data m := by
    rw [hout, dupEach_eq_flatMapPairs _ 0,
      flatMapPairs_getD_even _ _ _ _ _ (by simpa using hmn),
      getD_map_lt _ _ _ _ 0 (by simpa using hmn), getD_range _ _ _ hmn]
  exact ⟨e1, e2, e3, e4, e1.trans hbase, e3.trans hsrc, e5.trans hctf⟩

/-- Witness for C9: the pairing theorem applied to a concrete dataset of
two sentences with `num_samples = 2`. -/
theorem change_query_box_pos_pairs_witness :
    (2 % 2 = 0 ∧ 2 ≤ c9_data.length ∧
      ∀ i, i < 2 → 1 < (cTok.encode (sentence_label (c9_data.getD i []))).length) ∧
    (∃ res, change_query_box_pos cTok 2 c9_data = .ok res ∧
      res.1.length = 2 / 2 ∧ res.2.1.length = 2 / 2 ∧ res.2.2.1.length = 2 / 2 ∧
      res.2.2.2.1.length = 2 / 2 ∧ res.2.2.2.2.length = 2 / 2 ∧
      ∀ m, m < 2 / 2 →
        res.1.getD m [] = (batchInputIds cTok (cbl_prompts c9_data 2)).getD (2 * m) [] ∧
        res.2.1.getD m 0 =
          (batchLastTokenIndices cTok (cbl_prompts c9_data 2)).getD (2 * m) 0 ∧
        res.2.2.1.getD m [] =
          (batchInputIds cTok (cbl_prompts c9_data 2)).getD (2 * m + 1) [] ∧
        res.2.2.2.1.getD m 0 =
          (batchLastTokenIndices cTok (cbl_prompts c9_data 2)).getD (2 * m + 1) 0 ∧
        res.1.getD m [] =
          padRow cTok (batchMaxLen cTok (cbl_prompts c9_data 2))
            (strip_last_word (c9_data.getD m [])) ∧
        res.2.2.1.getD m [] =
          padRow cTok (batchMaxLen cTok (cbl_prompts c9_data 2))
            (relabel_digits (strip_last_word (c9_data.getD m []))) ∧
        res.2.2.2.2.getD m 0 = cbl_label_of cTok c9_data m) :=
  ⟨⟨by decide, by decide, by decide⟩,
   change_query_box_pos_pairs cTok c9_data 2 (by decide) (by decide) (by decide)⟩

theorem take_sorted_range_selection (r : Nat → Nat → Prop) [DecidableRel r]
    [IsTotal Nat r] [IsTrans Nat r] (n k : Nat) (hk : k ≤ n) :
    (((List.range n).insertionSort r).take k).length = k ∧
    (((List.range n).insertionSort r).take k).Nodup ∧
    (∀ i ∈ ((List.range n).insertionSort r).take k, i < n) ∧
    List.Sorted r (((List.range n).insertionSort r).take k) ∧
    (∀ i ∈ ((List.range n).insertionSort r).take k, ∀ j, j < n →
      j ∉ ((List.range n).insertionSort r).take k → i ≠ j ∧ r i j) := by
  have hperm : List.Perm ((List.range n).insertionSort r) (List.range n) :=
    List.perm_insertionSort r _
  have hslen : ((List.range n).insertionSort r).length = n := by
    rw [hperm.length_eq, List.length_range]
  have hsort : List.Sorted r ((List.range n).insertionSort r) :=
    List.sorted_insertionSort r _
  have hnodup : ((List.range n).insertionSort r).Nodup :=
    hperm.nodup_iff.mpr (List.nodup_range n)
  refine ⟨?_, ?_, ?_, ?_, ?_⟩
  · rw [List.length_take, hslen]
    omega
  · exact hnodup.sublist (List.take_sublist _ _)
  · intro i hi
    have : i ∈ (List.range n).insertionSort r := List.mem_of_mem_take hi
    exact List.mem_range.mp (hperm.mem_iff.mp this)
  · exact hsort.sublist (List.take_sublist _ _)
  · intro i hi j hj hjnot
    refine ⟨fun heq => hjnot (heq ▸ hi), ?_⟩
    have hjs : j ∈ (List.range n).insertionSort r :=
      hperm.mem_iff.mpr (List.mem_range.mpr hj)
    have hjdrop : j ∈ ((List.range n).insertionSort r).drop k := by
      rcases List.mem_append.mp
          ((List.take_append_drop k ((List.range n).insertionSort r)) ▸ hjs) with
        h | h
      · exact absurd h hjnot
      · exact h
    have hsplit := List.take_append_drop k ((List.range n).insertionSort r)
    have hpw : List.Pairwise r (((List.range n).insertionSort r).take k ++
        ((List.range n).insertionSort r).drop k) := by
      rw [hsplit]
      exact hsort
    exact (List.pairwise_append.mp hpw).2.2 i hi j hjdrop

theorem topkFlatIndices_true (v : List ℚ) (k : Nat) :
    topkFlatIndices v k true =
      ((List.range v.length).insertionSort (relTop v)).take k := by
  simp [topkFlatIndices]

theorem topkFlatIndices_false (v : List ℚ) (k : Nat) :
    topkFlatIndices v k false =
      ((List.range v.length).insertionSort (relBot v)).take k := by
  simp [topkFlatIndices]

theorem beats_of_relTop {v : List ℚ} {i j : Nat} (hne : i ≠ j)
    (h : relTop v i j) : beats v true i j := by
  unfold beats
  simp only [if_true]
  rcases h with h | ⟨he, hle⟩
  · exact Or.inl h
  · exact Or.inr ⟨he, lt_of_le_of_ne hle hne⟩

theorem beats_of_relBot {v : List ℚ} {i j : Nat} (hne : i ≠ j)
    (h : relBot v i j) : beats v false i j := by
  unfold beats
  simp only [Bool.false_eq_true, if_false]
  rcases h with h | ⟨he, hle⟩
  · exact Or.inl h
  · exact Or.inr ⟨he, lt_of_le_of_ne hle hne⟩

/-- C4: for every 2D score grid and every `k` within range,
`compute_topk_components` returns the `k` best (largest, or smallest when
`largest = false`) entries as `[row, column]` pairs obtained from the
flattened row-major rank by integer division and modulo on the grid's
column count, with ties broken in favour of the lower flattened index: every
selected flattened index is in range, the selected indices are distinct, and
every selected index strictly beats every unselected one (greater value — or
smaller for `largest = false` — or equal value with lower flattened index).
In particular `topk([[1,5],[9,2]], k=2, largest=True)` is `[[1,0],[0,1]]`. -/
theorem compute_topk_components_spec (g : List (List ℚ)) (k : Nat) (largest : Bool)
    (hk : k ≤ (g.flatMap id).length) :
    compute_topk_components g k largest =
      some ((topkFlatIndices (g.flatMap id) k largest).map fun i =>
        [i / (g.headD []).length, i % (g.headD []).length]) ∧
    (topkFlatIndices (g.flatMap id) k largest).length = k ∧
    (topkFlatIndices (g.flatMap id) k largest).Nodup ∧
    (∀ i ∈ topkFlatIndices (g.flatMap id) k largest, i < (g.flatMap id).length) ∧
    (∀ i ∈ topkFlatIndices (g.flatMap id) k largest,
      ∀ j, j < (g.flatMap id).length → j ∉ topkFlatIndices (g.flatMap id) k largest →
        beats (g.flatMap id) largest i j) ∧
    compute_topk_components [[1, 5], [9, 2]] 2 true = some [[1, 0], [0, 1]] := by
  refine ⟨by unfold compute_topk_components; rw [if_pos hk], ?_, ?_, ?_, ?_, by decide⟩
  · cases largest
    · rw [topkFlatIndices_false]
      exact (take_sorted_range_selection (relBot (g.flatMap id)) _ k hk).1
    · rw [topkFlatIndices_true]
      exact (take_sorted_range_selection (relTop (g.flatMap id)) _ k hk).1
  · cases largest
    · rw [topkFlatIndices_false]
      exact (take_sorted_range_selection (relBot (g.flatMap id)) _ k hk).2.1
    · rw [topkFlatIndices_true]
      exact (take_sorted_range_selection (relTop (g.flatMap id)) _ k hk).2.1
  · cases largest
    · rw [topkFlatIndices_false]
      exact (take_sorted_range_selection (relBot (g.flatMap id)) _ k hk).2.2.1
    · rw [topkFlatIndices_true]
      exact (take_sorted_range_selection (relTop (g.flatMap id)) _ k hk).2.2.1
  · cases largest
    · rw [topkFlatIndices_false]
      intro i hi j hj hjn
      have h := (take_sorted_range_selection (relBot (g.flatMap id)) _ k hk).2.2.2.2
        i hi j hj hjn
      exact beats_of_relBot h.1 h.2
    · rw [topkFlatIndices_true]
      intro i hi j hj hjn
      have h := (take_sorted_range_selection (relTop (g.flatMap id)) _ k hk).2.2.2.2
        i hi j hj hjn
      exact beats_of_relTop h.1 h.2

/-- Witness for C4: the theorem applied to the §8 grid `[[1,5],[9,2]]` with
`k = 2`, `largest = True`. -/
theorem compute_topk_components_spec_witness :
    2 ≤ (([[1, 5], [9, 2]] : List (List ℚ)).flatMap id).length ∧
    (compute_topk_components [[1, 5], [9, 2]] 2 true =
      some ((topkFlatIndices (([[1, 5], [9, 2]] : List (List ℚ)).flatMap id) 2 true).map
        fun i => [i / (([[1, 5], [9, 2]] : List (List ℚ)).headD []).length,
                  i % (([[1, 5], [9, 2]] : List (List ℚ)).headD []).length]) ∧
    (topkFlatIndices (([[1, 5], [9, 2]] : List (List ℚ)).flatMap id) 2 true).length = 2 ∧
    (topkFlatIndices (([[1, 5], [9, 2]] : List (List ℚ)).flatMap id) 2 true).Nodup ∧
    (∀ i ∈ topkFlatIndices (([[1, 5], [9, 2]] : List (List ℚ)).flatMap id) 2 true,
      i < (([[1, 5], [9, 2]] : List (List ℚ)).flatMap id).length) ∧
    (∀ i ∈ topkFlatIndices (([[1, 5], [9, 2]] : List (List ℚ)).flatMap id) 2 true,
      ∀ j, j < (([[1, 5], [9, 2]] : List (List ℚ)).flatMap id).length →
        j ∉ topkFlatIndices (([[1, 5], [9, 2]] : List (List ℚ)).flatMap id) 2 true →
          beats (([[1, 5], [9, 2]] : List (List ℚ)).flatMap id) true i j) ∧
    compute_topk_components [[1, 5], [9, 2]] 2 true = some [[1, 0], [0, 1]]) :=
  ⟨by decide, compute_topk_components_spec [[1, 5], [9, 2]] 2 true (by decide)⟩

theorem isOkE_ebind_false {α β : Type} {x : Except PyErr α} {f : α → Except PyErr β}
    (h : ∀ a, isOkE (f a) = false) : isOkE (ebind x f) = false := by
  cases x with
  | error e => rfl
  | ok a => exact h a

/-- C3: the claim states that `perf_metric` returns
`(log P(answer|patched) − log P(answer|corrupted)) / (log P(answer|clean) − log P(answer|corrupted))`.
It never returns at all: its final statement `return score / batch_size`
refers to a name `batch_size` bound nowhere in scope, so every invocation
that reaches it raises `NameError` (and every other control path raises an
indexing error earlier); on a well-formed concrete input the result is
exactly `NameError("batch_size")`. -/
theorem perf_metric_never_returns (logSoftmax : List PyFloat → List PyFloat)
    (patched_logits : List (List (List PyFloat))) (answer : Int)
    (base_logits source_logits : List (List (List PyFloat)))
    (base_last_token_pos source_last_token_pos : Int) :
    isOkE (perf_metric logSoftmax patched_logits answer base_logits source_logits
      base_last_token_pos source_last_token_pos) = false ∧
    perf_metric id [[[.num 1]]] 0 [[[.num 1]]] [[[.num 1]]] 0 0 =
      .error (.nameError ("batch_size")) := by
  constructor
  · unfold perf_metric
    apply isOkE_ebind_false; intro a1
    apply isOkE_ebind_false; intro a2
    apply isOkE_ebind_false; intro a3
    apply isOkE_ebind_false; intro a4
    apply isOkE_ebind_false; intro a5
    apply isOkE_ebind_false; intro a6
    apply isOkE_ebind_false; intro a7
    apply isOkE_ebind_false; intro a8
    apply isOkE_ebind_false; intro a9
    rfl
  · decide

/-- C7: the claim states that with a zero denominator (`clean == corrupted`
at the answer token) `perf_metric` reports an explicit NaN rather than
raising.  On a concrete input whose clean and corrupted log-probabilities
at the answer coincide (so the denominator `clean[answer] - corrupt[answer]`
is exactly `num 0`), the function raises `NameError("batch_size")` instead
of reporting anything — the embedded IEEE division itself would not fault
(`pyDiv` of `0/0` is `nan`), but the result never reaches the caller. -/
theorem perf_metric_denominator_zero_raises :
    pySub (PyFloat.num 1) (PyFloat.num 1) = PyFloat.num 0 ∧
    pyDiv (PyFloat.num 0) (PyFloat.num 0) = PyFloat.nan ∧
    perf_metric id [[[.num 2]]] 0 [[[.num 1]]] [[[.num 1]]] 0 0 =
      .error (.nameError ("batch_size")) := by
  refine ⟨?_, ?_, ?_⟩
  · norm_num [pySub]
  · norm_num [pyDiv]
  · decide

/-- C10: the claim states that every randomly drawn dataset index is
strictly below the number of dataset rows, so `random_samples` never fails
with an index-out-of-range error.  But `random.randint(0, len(data))` is
inclusive of `len(data)`: on a two-sentence dataset, a generator state whose
draw is 2 yields index `2 = len(data)` (first conjunct), and the subsequent
`data[i]` access makes the whole call raise `IndexError` (second conjunct),
even though `num_samples = 1` is within the asserted bounds. -/
theorem random_samples_index_out_of_range :
    (randIntIncl 0 c9_data.length cStateTwo).1 = c9_data.length ∧
    PyM.runE (random_samples cTok 1 c9_data cArch) cStateTwo =
      .error .indexError := by
  decide

/-- Counterexample to C2: a complete, successful run with one example
(`num_samples = 1`, `num_ents_or_ops = 1`) returns six sequences of length
1 and a seventh — `all_incorrect_output_ids` — of length 0, so not all
returned sequences have equal length. -/
theorem box_index_aligner_unequal_lengths :
    (PyM.runE (box_index_aligner_examples cTok 1 1 c9_data cArch) cStateTwo).map
      (fun r => [r.base_ids.length, r.base_pos.length, r.src_ids.length,
                 r.src_pos.length, r.ctf.length, r.interv.length,
                 r.incorrect.length]) = .ok [1, 1, 1, 1, 1, 1, 0] ∧
    (0 : Nat) ≠ 1 := by
  decide

/-- C2 (amended): on every successful run, the six primary sequences (base
ids, base positions, source ids, source positions, counterfactual labels,
intervention ids) have equal length — the i-th elements across them are the
fields of the same per-iteration record — while the extra metadata sequence
`all_incorrect_output_ids` is always the empty list, so the all-sequences
form of the claim fails whenever at least one example is produced. -/
theorem box_index_aligner_aligned_lengths (T : Tokenizer) (N k : Nat)
    (data : List PyStr) (architecture : PyStr) (st : RState) (r : AlignerOut)
    (h : PyM.runE (box_index_aligner_examples T N k data architecture) st = .ok r) :
    r.base_pos.length = r.base_ids.length ∧
    r.src_ids.length = r.base_ids.length ∧
    r.src_pos.length = r.base_ids.length ∧
    r.ctf.length = r.base_ids.length ∧
    r.interv.length = r.base_ids.length ∧
    r.incorrect = [] := by
  unfold PyM.runE at h
  rcases hrun : box_index_aligner_examples T N k data architecture st with e | p
  · rw [hrun] at h
    cases h
  · rw [hrun] at h
    obtain ⟨r0, st'⟩ := p
    have hr : r0 = r := by
      cases h
      rfl
    subst hr
    unfold box_index_aligner_examples at hrun
    obtain ⟨ets, st1, h1, h2⟩ := pbind_ok_iff.mp hrun
    by_cases hk : k = 0
    · rw [if_pos hk] at h2
      cases h2
    · rw [if_neg hk] at h2
      obtain ⟨recs, st2, h3, h4⟩ := pbind_ok_iff.mp h2
      have h5 : (⟨recs.map (fun r => r.base_ids), recs.map (fun r => r.base_pos),
          recs.map (fun r => r.src_ids), recs.map (fun r => r.src_pos),
          recs.map (fun r => r.ctf), recs.map (fun r => r.interv), []⟩ : AlignerOut)
          = r0 := by
        cases h4
        rfl
      rw [← h5]
      simp

/-- Witness for the amended C2 theorem: the alignment invariant holds on a
concrete successful run. -/
theorem box_index_aligner_aligned_lengths_witness :
    PyM.runE (box_index_aligner_examples cTok 1 1 c9_data cArch) cStateTwo =
      .ok c2_out ∧
    (c2_out.base_pos.length = c2_out.base_ids.length ∧
     c2_out.src_ids.length = c2_out.base_ids.length ∧
     c2_out.src_pos.length = c2_out.base_ids.length ∧
     c2_out.ctf.length = c2_out.base_ids.length ∧
     c2_out.interv.length = c2_out.base_ids.length ∧
     c2_out.incorrect = []) :=
  ⟨by decide,
   box_index_aligner_aligned_lengths cTok 1 1 c9_data cArch cStateTwo c2_out (by decide)⟩

/-- C8: for every Prompt Editor and fixed seed, two invocations with the
same seed and inputs produce byte-identical (base prompt, source prompt,
label) triples.  Python's `random` module is a deterministic generator: its
draws are a pure function of the seeded state, and the editors consume no
other implicit input.  The embedding makes this explicit — the generator
state is the editors' only non-argument input — so an invocation is a pure
function of (inputs, state): re-running either cited editor (the loop phase
producing the raw triples, and the full function producing the tokenized
batches) from the same state yields definitionally the same result. -/
theorem editors_deterministic_for_fixed_seed (T : Tokenizer) (num_samples : Nat)
    (data objects : List PyStr) (few_shot alt_examples : Bool) (st : RState) :
    alter_core T num_samples data st = alter_core T num_samples data st ∧
    alter_box_object_association T num_samples data st =
      alter_box_object_association T num_samples data st ∧
    object_alignment_core T objects few_shot alt_examples num_samples data st =
      object_alignment_core T objects few_shot alt_examples num_samples data st ∧
    object_alignment_example_generator T objects few_shot alt_examples num_samples
        data st =
      object_alignment_example_generator T objects few_shot alt_examples num_samples
        data st :=
  ⟨rfl, rfl, rfl, rfl⟩
